import Mathlib

/-!
Verification of the salt `key_manager` package (the pluggable key store
abstraction and its local-file backend) against its specification.

The embedding models:
* `salt/key_manager/__init__.py`: `BaseKeyManager.__init__` (construction of
  the optional cipher), `_encrypt_priv_key`, `_decrypt_priv_key`;
* `salt/key_manager/local_files.py`: `LocalFileKeyManager._get_key_path`,
  `save`, `get`, `remove`.

Byte strings are `List Nat`.  The local filesystem is a map from path
strings to file entries (contents plus permission mode) together with the
process file-creation mask (`umask`), since `save` manipulates both.
Python exceptions become an explicit error component: `save` returns the
post-state together with an optional error (an exception raised midway
leaves the effects performed so far, which matters because `save` mutates
the mask and writes files before its final `chmod`); `get` performs no
writes and returns `Except`.
-/

set_option linter.unusedVariables false

namespace SaltKeyManager

/-- Errors raised by the modelled code: `salt.exceptions.KeyExists`,
`salt.exceptions.KeyNotFound`, `salt.exceptions.KeyManagerConfigError`,
and the `OSError`/`FileNotFoundError` that `os.chmod` raises when its path
does not exist. -/
inductive Err where
  | keyExists : String → Err
  | keyNotFound : String → Err
  | configError : String → Err
  | fileNotFound : Err
deriving DecidableEq

/-- A stored file: its byte contents and its permission mode bits. -/
structure FileData where
  contents : List Nat
  mode : Nat
deriving DecidableEq

/-- Filesystem-plus-process state used by the local backend: a partial map
from path strings to files, and the process file-creation mask. -/
structure FS where
  files : String → Option FileData
  umask : Nat

/-- Model of `os.path.isfile`. -/
def FS.isfile (fs : FS) (p : String) : Bool :=
  (fs.files p).isSome

/-- Model of `fopen(p, "wb+")` followed by writing `data`: creates the file (mode
`0o666` masked by the current umask) or truncates an existing one, keeping
its mode. -/
def FS.write (fs : FS) (p : String) (data : List Nat) : FS :=
  { fs with
    files := fun q =>
      if q = p then
        some ⟨data,
          match fs.files p with
          | some fd => fd.mode
          | none => Nat.land 438 (Nat.xor 511 (fs.umask % 512))⟩
      else fs.files q }

/-- Model of `os.chmod(p, m)`: sets the mode of an existing file, or raises
`FileNotFoundError` when no file exists at `p`. -/
def FS.chmod (fs : FS) (p : String) (m : Nat) : FS × Option Err :=
  match fs.files p with
  | some fd =>
      ({ fs with files := fun q => if q = p then some ⟨fd.contents, m⟩ else fs.files q },
       none)
  | none => (fs, some Err.fileNotFound)

/-- Model of `os.remove(p)`. -/
def FS.removeFile (fs : FS) (p : String) : FS :=
  { fs with files := fun q => if q = p then none else fs.files q }

/-- Model of `os.umask(m)`: returns the previous mask and installs `m`. -/
def FS.setUmask (fs : FS) (m : Nat) : Nat × FS :=
  (fs.umask, { fs with umask := m })

/-- The external Cipher Adapter (`salt.crypt.Crypticle`): symmetric
encryption and decryption of byte payloads. -/
structure Cipher where
  encrypt : List Nat → List Nat
  decrypt : List Nat → List Nat

/-- The configuration keys the key manager reads from `opts`.  An `Option`
field is `none` when the key is absent from the dict. -/
structure Opts where
  encrypt_private_keys : Option Bool := none
  keystore_secret : Option String := none
  pki_dir : Option String := none

/-- Model of `BaseKeyManager.__init__`, the encryption part: when
`encrypt_private_keys` is present and truthy, construct a `Crypticle` from
`keystore_secret` (missing secret raises `KeyManagerConfigError`);
otherwise `self.crypt = None`.  `mk` stands for the external `Crypticle`
constructor. -/
def init_crypt (mk : String → Cipher) (opts : Opts) : Except Err (Option Cipher) :=
  if opts.encrypt_private_keys = some true then
    match opts.keystore_secret with
    | some s => .ok (some (mk s))
    | none => .error (.configError
        "keystore_secret must be set when private key encryption is enabled.")
  else
    .ok none

/-- Model of `BaseKeyManager._encrypt_priv_key`: encrypt with the adapter when one
is configured, else return the plain text. -/
def encrypt_priv_key (crypt : Option Cipher) (priv_key : List Nat) : List Nat :=
  match crypt with
  | some c => c.encrypt priv_key
  | none => priv_key

/-- Model of `BaseKeyManager._decrypt_priv_key`: decrypt with the adapter when one
is configured, else return the stored bytes. -/
def decrypt_priv_key (crypt : Option Cipher) (crypted_key : List Nat) : List Nat :=
  match crypt with
  | some c => c.decrypt crypted_key
  | none => crypted_key

/-- Python truthiness of the optional `priv_key` argument: `None` and the
empty byte string are falsy. -/
def truthy : Option (List Nat) → Bool
  | none => false
  | some l => !l.isEmpty

/-- Model of `LocalFileKeyManager._get_key_path`: `base_dir/key_type/key_name.pem`
for the private artifact, `.pub` for the public one.  (The `os.makedirs`
side effect touches only directories, which the file map does not track.) -/
def get_key_path (base_dir key_type key_name : String) (priv : Bool) : String :=
  let suffix := if priv then "pem" else "pub"
  let file_name := key_name ++ "." ++ suffix
  let type_dir := base_dir ++ "/" ++ key_type
  type_dir ++ "/" ++ file_name

/-- Model of `LocalFileKeyManager.save`.  Returns the resulting state together with
the raised exception, if any; an exception leaves the effects performed
before it was raised. -/
def save (crypt : Option Cipher) (base_dir : String) (fs : FS)
    (key_type key_name : String) (pub_key : List Nat)
    (priv_key : Option (List Nat) := none) : FS × Option Err :=
  let priv_key_to_store : Option (List Nat) :=
    if truthy priv_key then some (encrypt_priv_key crypt (priv_key.getD [])) else none
  let pub_key_path := get_key_path base_dir key_type key_name false
  let priv_key_path := get_key_path base_dir key_type key_name true
  if fs.isfile pub_key_path then
    (fs, some (.keyExists ("A public key for " ++ key_name ++ " already exists in the store.")))
  else if truthy priv_key && fs.isfile priv_key_path then
    (fs, some (.keyExists ("A private key for " ++ key_name ++ " already exists in the store.")))
  else
    let cumask_fs := fs.setUmask 191
    let fs := cumask_fs.2
    let fs := fs.write pub_key_path pub_key
    let fs :=
      if truthy priv_key_to_store then fs.write priv_key_path (priv_key_to_store.getD [])
      else fs
    fs.chmod priv_key_path 256

/-- Model of `LocalFileKeyManager.get`.  (The `decrypt_priv` flag is a parameter of
the source function; its body never consults it.) -/
def get (crypt : Option Cipher) (base_dir : String) (fs : FS)
    (key_type key_name : String) (decrypt_priv : Bool := true) :
    Except Err (List Nat × Option (List Nat)) :=
  let pub_key_path := get_key_path base_dir key_type key_name false
  let priv_key_path := get_key_path base_dir key_type key_name true
  match fs.files pub_key_path with
  | none => .error (.keyNotFound ("No public key was found for " ++ key_name))
  | some pub_fd =>
      let priv_key : Option (List Nat) :=
        match fs.files priv_key_path with
        | some priv_fd => some (decrypt_priv_key crypt priv_fd.contents)
        | none => none
      .ok (pub_fd.contents, priv_key)

/-- Model of `LocalFileKeyManager.remove`: delete whichever of the two artifacts
exist. -/
def remove (base_dir : String) (fs : FS) (key_type key_name : String) : FS :=
  let pub_key_path := get_key_path base_dir key_type key_name false
  let priv_key_path := get_key_path base_dir key_type key_name true
  let fs := if fs.isfile pub_key_path then fs.removeFile pub_key_path else fs
  if fs.isfile priv_key_path then fs.removeFile priv_key_path else fs

/-- An empty store with the common default mask `0o022`. -/
def emptyFS : FS := { files := fun _ => none, umask := 18 }

/-- A concrete sample Cipher Adapter used in concrete evaluations: shifts
every byte up on encryption and down on decryption. -/
def demoCipher : Cipher :=
  { encrypt := fun l => l.map (· + 1), decrypt := fun l => l.map (· - 1) }

/-- A concrete sample Cipher Adapter whose inverse property is provable for
all inputs: byte-string reversal both ways. -/
def revCipher : Cipher := { encrypt := List.reverse, decrypt := List.reverse }

/-- A store holding only a private artifact for `("minion", "node1")`. -/
def fsPrivOnly : FS :=
  { files := fun q =>
      if q = get_key_path "/pki" "minion" "node1" true then some ⟨[9], 256⟩ else none,
    umask := 18 }

/-- A store holding only a public artifact for `("minion", "node1")`. -/
def fsPubOnly : FS :=
  { files := fun q =>
      if q = get_key_path "/pki" "minion" "node1" false then some ⟨[7], 256⟩ else none,
    umask := 18 }

/-! ## Helper lemmas -/

/-- The public and private key paths of one `(key_type, key_name)` always
differ (they end in `.pub` and `.pem` respectively). -/
theorem get_key_path_pub_ne_pem (base_dir key_type key_name : String) :
    get_key_path base_dir key_type key_name false ≠
      get_key_path base_dir key_type key_name true := by
  intro h
  have h2 := congrArg (fun s => s.data.reverse.head?) h
  simp [get_key_path, String.data_append, List.reverse_append] at h2

/-- Behaviour of `save` on a fresh `(key_type, key_name)` when non-empty
private material is supplied and the adapter yields non-empty ciphertext
for it (Python truthiness skips the private write for an empty byte string,
and the trailing chmod would then raise): no error, both artifacts stored
(the private one encrypted, both with mode `0o400`), the file-creation
mask left at `0o277`, and all other paths untouched. -/
theorem save_fresh_spec (crypt : Option Cipher) (base_dir key_type key_name : String)
    (fs : FS) (pub_key : List Nat) (a : Nat) (l : List Nat)
    (henc : encrypt_priv_key crypt (a :: l) ≠ [])
    (hfresh_pub : fs.files (get_key_path base_dir key_type key_name false) = none)
    (hfresh_priv : fs.files (get_key_path base_dir key_type key_name true) = none) :
    (save crypt base_dir fs key_type key_name pub_key (some (a :: l))).2 = none ∧
    (save crypt base_dir fs key_type key_name pub_key (some (a :: l))).1.files
        (get_key_path base_dir key_type key_name false) = some ⟨pub_key, 256⟩ ∧
    (save crypt base_dir fs key_type key_name pub_key (some (a :: l))).1.files
        (get_key_path base_dir key_type key_name true) =
      some ⟨encrypt_priv_key crypt (a :: l), 256⟩ ∧
    (save crypt base_dir fs key_type key_name pub_key (some (a :: l))).1.umask = 191 ∧
    ∀ q, q ≠ get_key_path base_dir key_type key_name false →
      q ≠ get_key_path base_dir key_type key_name true →
      (save crypt base_dir fs key_type key_name pub_key (some (a :: l))).1.files q =
        fs.files q := by
  obtain ⟨e, es, hE⟩ : ∃ e es, encrypt_priv_key crypt (a :: l) = e :: es := by
    cases hc : encrypt_priv_key crypt (a :: l) with
    | nil => exact absurd hc henc
    | cons e es => exact ⟨e, es, rfl⟩
  have hne := get_key_path_pub_ne_pem base_dir key_type key_name
  have hne' := hne.symm
  have hmode : Nat.land 438 (Nat.xor 511 (191 % 512)) = 256 := by decide
  refine ⟨?_, ?_, ?_, ?_, ?_⟩
  · simp [save, truthy, FS.isfile, FS.setUmask, FS.write, FS.chmod,
      hfresh_pub, hfresh_priv, hne, hne', hE]
  · simp [save, truthy, FS.isfile, FS.setUmask, FS.write, FS.chmod,
      hfresh_pub, hfresh_priv, hne, hne', hE, hmode]
  · simp [save, truthy, FS.isfile, FS.setUmask, FS.write, FS.chmod,
      hfresh_pub, hfresh_priv, hne, hne', hE]
  · simp [save, truthy, FS.isfile, FS.setUmask, FS.write, FS.chmod,
      hfresh_pub, hfresh_priv, hne, hne', hE]
  · intro q hq1 hq2
    simp [save, truthy, FS.isfile, FS.setUmask, FS.write, FS.chmod,
      hfresh_pub, hfresh_priv, hne, hne', hE, hq1, hq2]

/-- The final `os.chmod` of `save` can raise only `FileNotFoundError`,
never `KeyExists`. -/
theorem chmod_not_keyExists (fs : FS) (p : String) (m : Nat) :
    ∀ s, (fs.chmod p m).2 ≠ some (Err.keyExists s) := by
  intro s
  unfold FS.chmod
  cases fs.files p <;> simp

/-- Lemma: `save` raises `KeyExists` exactly when the public artifact already
exists, or private material is supplied (and non-empty) and the private
artifact already exists. -/
theorem save_keyExists_iff (crypt : Option Cipher) (base_dir key_type key_name : String)
    (fs : FS) (pub_key : List Nat) (priv_key : Option (List Nat)) :
    (∃ m, (save crypt base_dir fs key_type key_name pub_key priv_key).2 =
        some (Err.keyExists m)) ↔
      (fs.isfile (get_key_path base_dir key_type key_name false) = true ∨
        (truthy priv_key = true ∧
          fs.isfile (get_key_path base_dir key_type key_name true) = true)) := by
  cases hpub : fs.isfile (get_key_path base_dir key_type key_name false) with
  | true => simp [save, hpub]
  | false =>
    cases hpriv : truthy priv_key with
    | false => simp [save, hpub, hpriv, chmod_not_keyExists]
    | true =>
      cases hprivf : fs.isfile (get_key_path base_dir key_type key_name true) with
      | true => simp [save, hpub, hpriv, hprivf]
      | false => simp [save, hpub, hpriv, hprivf, chmod_not_keyExists]

/-- Pointwise effect of `remove`: both artifact paths of the pair become
absent and every other path is untouched. -/
theorem remove_files (base_dir key_type key_name : String) (fs : FS) (q : String) :
    (remove base_dir fs key_type key_name).files q =
      if q = get_key_path base_dir key_type key_name false then none
      else if q = get_key_path base_dir key_type key_name true then none
      else fs.files q := by
  have hne := get_key_path_pub_ne_pem base_dir key_type key_name
  rcases hp : fs.files (get_key_path base_dir key_type key_name false) with _ | fdp <;>
    rcases hq : fs.files (get_key_path base_dir key_type key_name true) with _ | fdq <;>
      simp [remove, FS.isfile, FS.removeFile, hp, hq, hne, hne.symm] <;>
        split_ifs <;> simp_all

/-! ## Claim theorems -/

/-- C1: for the local file backend with a fresh `(key_type, key_name)`,
`save` with non-empty public and private material followed by `get` with
`decrypt_priv` left at its default returns exactly the saved pair, the
private half decrypted (assuming the configured adapter, if any, is a
correct inverse pair and yields non-empty ciphertext for the supplied
material — an empty ciphertext is falsy in Python, so the private write
would be skipped and the trailing chmod would raise). -/
theorem save_then_get_returns_saved_pair (crypt : Option Cipher)
    (base_dir key_type key_name : String) (fs : FS) (pub_key priv_key : List Nat)
    (hpub : pub_key ≠ []) (hpriv : priv_key ≠ [])
    (henc : encrypt_priv_key crypt priv_key ≠ [])
    (hfresh_pub : fs.files (get_key_path base_dir key_type key_name false) = none)
    (hfresh_priv : fs.files (get_key_path base_dir key_type key_name true) = none)
    (hinv : ∀ c, crypt = some c → ∀ x, c.decrypt (c.encrypt x) = x) :
    ∃ fs', save crypt base_dir fs key_type key_name pub_key (some priv_key) = (fs', none) ∧
      get crypt base_dir fs' key_type key_name = .ok (pub_key, some priv_key) := by
  obtain ⟨a, l, rfl⟩ : ∃ a l, priv_key = a :: l := by
    cases priv_key with
    | nil => exact absurd rfl hpriv
    | cons a l => exact ⟨a, l, rfl⟩
  obtain ⟨h2, hfpub, hfpriv, -, -⟩ :=
    save_fresh_spec crypt base_dir key_type key_name fs pub_key a l henc
      hfresh_pub hfresh_priv
  refine ⟨(save crypt base_dir fs key_type key_name pub_key (some (a :: l))).1, ?_, ?_⟩
  · rw [← h2]
  · have hdec : decrypt_priv_key crypt (encrypt_priv_key crypt (a :: l)) = a :: l := by
      cases hc : crypt with
      | none => rfl
      | some c => simpa [encrypt_priv_key, decrypt_priv_key] using hinv c hc (a :: l)
    simp [get, hfpub, hfpriv, hdec]

/-- Witness for C1 at a concrete input. -/
theorem save_then_get_returns_saved_pair_witness :
    ∃ fs', save none "/pki" emptyFS "minion" "node1" [80, 85, 66] (some [80, 82]) =
        (fs', none) ∧
      get none "/pki" fs' "minion" "node1" = .ok ([80, 85, 66], some [80, 82]) :=
  save_then_get_returns_saved_pair none "/pki" "minion" "node1" emptyFS
    [80, 85, 66] [80, 82] (by decide) (by decide) (by decide) rfl rfl
    (fun c h => nomatch h)

/-- C2: a pub-only `save` on a fresh `(key_type, key_name)` does not
succeed: the public artifact is written, but the trailing unconditional
`os.chmod` on the never-written private path raises `FileNotFoundError`. -/
theorem save_without_priv_raises_oserror :
    (save none "/pki" emptyFS "minion" "node2" [80, 85, 66, 50] none).2 =
      some Err.fileNotFound ∧
    ((save none "/pki" emptyFS "minion" "node2" [80, 85, 66, 50] none).1.files
        (get_key_path "/pki" "minion" "node2" false)).map FileData.contents =
      some [80, 85, 66, 50] := by
  constructor <;> rfl

/-- C3: `get` never consults its `decrypt_priv` flag — calling it with
`false` yields exactly the same result as with `true`; concretely, with an
adapter configured and `[6]` stored as the private artifact,
`get (decrypt_priv := false)` still returns the decrypted `[5]`, not the
stored form. -/
theorem get_decrypt_priv_flag_ignored :
    (∀ (crypt : Option Cipher) (base_dir : String) (fs : FS) (key_type key_name : String),
        get crypt base_dir fs key_type key_name false =
          get crypt base_dir fs key_type key_name true) ∧
    (((save (some demoCipher) "/pki" emptyFS "minion" "node1" [7] (some [5])).1.files
          (get_key_path "/pki" "minion" "node1" true)).map FileData.contents = some [6] ∧
      get (some demoCipher) "/pki"
          (save (some demoCipher) "/pki" emptyFS "minion" "node1" [7] (some [5])).1
          "minion" "node1" false = .ok ([7], some [5])) :=
  ⟨fun _ _ _ _ _ => rfl, by constructor <;> rfl⟩

/-- C4: `save` narrows the file-creation mask to `0o277` (191) and never
restores it — after a successful save starting from mask `0o022` (18) the
process mask is left at 191. -/
theorem save_leaves_mask_narrowed :
    emptyFS.umask = 18 ∧
    (save none "/pki" emptyFS "minion" "node1" [80] (some [81])).2 = none ∧
    (save none "/pki" emptyFS "minion" "node1" [80] (some [81])).1.umask = 191 := by
  refine ⟨rfl, rfl, rfl⟩

/-- C5: a second `save` for the same `(key_type, key_name)`, both calls
supplying public and private material, raises `KeyExists` and returns the
state of the first save unchanged — both existence checks precede any
write.  (The first save is assumed to store non-empty ciphertext, so that
it succeeds at all; see the C2 bug.) -/
theorem save_twice_raises_keyExists (crypt : Option Cipher)
    (base_dir key_type key_name : String) (fs : FS)
    (pub1 priv1 pub2 priv2 : List Nat)
    (hpriv1 : priv1 ≠ []) (hpriv2 : priv2 ≠ [])
    (henc1 : encrypt_priv_key crypt priv1 ≠ [])
    (hfresh_pub : fs.files (get_key_path base_dir key_type key_name false) = none)
    (hfresh_priv : fs.files (get_key_path base_dir key_type key_name true) = none) :
    ∃ fs', save crypt base_dir fs key_type key_name pub1 (some priv1) = (fs', none) ∧
      save crypt base_dir fs' key_type key_name pub2 (some priv2) =
        (fs', some (Err.keyExists
          ("A public key for " ++ key_name ++ " already exists in the store."))) := by
  obtain ⟨a, l, rfl⟩ : ∃ a l, priv1 = a :: l := by
    cases priv1 with
    | nil => exact absurd rfl hpriv1
    | cons a l => exact ⟨a, l, rfl⟩
  obtain ⟨h2, hfpub, -, -, -⟩ :=
    save_fresh_spec crypt base_dir key_type key_name fs pub1 a l henc1
      hfresh_pub hfresh_priv
  refine ⟨(save crypt base_dir fs key_type key_name pub1 (some (a :: l))).1, ?_, ?_⟩
  · rw [← h2]
  · generalize hG : (save crypt base_dir fs key_type key_name pub1 (some (a :: l))).1 = G
      at hfpub ⊢
    simp [save, FS.isfile, hfpub]

/-- Witness for C5 at a concrete input. -/
theorem save_twice_raises_keyExists_witness :
    ∃ fs', save none "/pki" emptyFS "minion" "node1" [80] (some [81]) = (fs', none) ∧
      save none "/pki" fs' "minion" "node1" [90] (some [91]) =
        (fs', some (Err.keyExists
          "A public key for node1 already exists in the store.")) :=
  save_twice_raises_keyExists none "/pki" "minion" "node1" emptyFS
    [80] [81] [90] [91] (by decide) (by decide) (by decide) rfl rfl

/-- C6 (amended): `save` raises `KeyExists` exactly when the public
artifact already exists, or when private material is supplied and the
private artifact already exists; an existing private artifact alone does
not block a save that supplies no private material. -/
theorem save_keyExists_exactly_when (crypt : Option Cipher)
    (base_dir key_type key_name : String) (fs : FS)
    (pub_key : List Nat) (priv_key : Option (List Nat)) :
    (∃ m, (save crypt base_dir fs key_type key_name pub_key priv_key).2 =
        some (Err.keyExists m)) ↔
      (fs.isfile (get_key_path base_dir key_type key_name false) = true ∨
        (truthy priv_key = true ∧
          fs.isfile (get_key_path base_dir key_type key_name true) = true)) :=
  save_keyExists_iff crypt base_dir key_type key_name fs pub_key priv_key

/-- Counterexample for C6 as stated: a store holding only a private
artifact for `("minion", "node1")` does not make a pub-only save for that
pair fail — the save raises nothing at all. -/
theorem save_ignores_existing_priv_when_none_given :
    fsPrivOnly.isfile (get_key_path "/pki" "minion" "node1" true) = true ∧
    (save none "/pki" fsPrivOnly "minion" "node1" [80] none).2 = none := by
  constructor <;> rfl

/-- C7: `get` fails with `KeyNotFound` exactly when no public artifact
exists; when the public artifact exists and the private one does not, it
returns the public contents with an absent private half. -/
theorem get_keyNotFound_exactly_when_no_pub (crypt : Option Cipher)
    (base_dir key_type key_name : String) (fs : FS) (dp : Bool) :
    ((∃ m, get crypt base_dir fs key_type key_name dp = .error (Err.keyNotFound m)) ↔
      fs.files (get_key_path base_dir key_type key_name false) = none) ∧
    (∀ fd, fs.files (get_key_path base_dir key_type key_name false) = some fd →
      fs.files (get_key_path base_dir key_type key_name true) = none →
      get crypt base_dir fs key_type key_name dp = .ok (fd.contents, none)) := by
  constructor
  · rcases hp : fs.files (get_key_path base_dir key_type key_name false) with _ | fd
    · simp [get, hp]
    · rcases hq : fs.files (get_key_path base_dir key_type key_name true) with _ | fdq <;>
        simp [get, hp, hq]
  · intro fd h1 h2
    simp [get, h1, h2]

/-- Witness for C7 at a concrete input. -/
theorem get_keyNotFound_exactly_when_no_pub_witness :
    get none "/pki" fsPubOnly "minion" "node1" true = .ok ([7], none) :=
  (get_keyNotFound_exactly_when_no_pub none "/pki" "minion" "node1" fsPubOnly true).2
    ⟨[7], 256⟩ rfl rfl

/-- C8: `remove` deletes whichever of the two artifacts exist, so a
subsequent `get` raises `KeyNotFound`; removing when no artifacts are
stored is a no-op, and `remove` is idempotent. -/
theorem remove_deletes_and_is_idempotent (crypt : Option Cipher)
    (base_dir key_type key_name : String) (fs : FS) (dp : Bool) :
    (remove base_dir fs key_type key_name).files
        (get_key_path base_dir key_type key_name false) = none ∧
    (remove base_dir fs key_type key_name).files
        (get_key_path base_dir key_type key_name true) = none ∧
    (∃ m, get crypt base_dir (remove base_dir fs key_type key_name) key_type key_name dp =
        .error (Err.keyNotFound m)) ∧
    (fs.files (get_key_path base_dir key_type key_name false) = none →
      fs.files (get_key_path base_dir key_type key_name true) = none →
      remove base_dir fs key_type key_name = fs) ∧
    remove base_dir (remove base_dir fs key_type key_name) key_type key_name =
      remove base_dir fs key_type key_name := by
  have hpub := remove_files base_dir key_type key_name fs
    (get_key_path base_dir key_type key_name false)
  have hpriv := remove_files base_dir key_type key_name fs
    (get_key_path base_dir key_type key_name true)
  rw [if_pos rfl] at hpub
  rw [if_neg (get_key_path_pub_ne_pem base_dir key_type key_name).symm, if_pos rfl] at hpriv
  have hnoop : ∀ g : FS, g.files (get_key_path base_dir key_type key_name false) = none →
      g.files (get_key_path base_dir key_type key_name true) = none →
      remove base_dir g key_type key_name = g := by
    intro g h1 h2
    simp [remove, FS.isfile, h1, h2]
  refine ⟨hpub, hpriv, ⟨"No public key was found for " ++ key_name, ?_⟩,
    hnoop fs, hnoop _ hpub hpriv⟩
  simp [get, hpub]

/-- Witness for C8 at a concrete input. -/
theorem remove_deletes_and_is_idempotent_witness :
    remove "/pki" emptyFS "minion" "node1" = emptyFS :=
  ((remove_deletes_and_is_idempotent none "/pki" "minion" "node1" emptyFS
    true).2.2.2).1 rfl rfl

/-- C9: with encryption disabled (`encrypt_private_keys` false or unset)
no Cipher Adapter is constructed and both wrappers are the identity; with
an adapter that is a correct inverse pair, the wrappers round-trip every
byte sequence. -/
theorem encryption_wrappers_spec (opts : Opts) (mk : String → Cipher) (c : Cipher)
    (x : List Nat)
    (hdisabled : opts.encrypt_private_keys ≠ some true)
    (hinv : ∀ y, c.decrypt (c.encrypt y) = y) :
    init_crypt mk opts = .ok none ∧
    encrypt_priv_key none x = x ∧
    decrypt_priv_key none x = x ∧
    decrypt_priv_key (some c) (encrypt_priv_key (some c) x) = x := by
  refine ⟨?_, rfl, rfl, ?_⟩
  · simp [init_crypt, hdisabled]
  · simpa [encrypt_priv_key, decrypt_priv_key] using hinv x

/-- Witness for C9 at a concrete input. -/
theorem encryption_wrappers_spec_witness :
    init_crypt (fun _ => revCipher) {} = .ok none ∧
    encrypt_priv_key none [1, 2] = [1, 2] ∧
    decrypt_priv_key none [1, 2] = [1, 2] ∧
    decrypt_priv_key (some revCipher) (encrypt_priv_key (some revCipher) [1, 2]) = [1, 2] :=
  encryption_wrappers_spec {} (fun _ => revCipher) revCipher [1, 2]
    (by decide) (fun y => List.reverse_reverse y)

/-- C10 (amended): supplying empty private material behaves exactly like
supplying none — the whole `save` call is the same function of the state,
so no private artifact is written and the empty bytes never reach the
encryption wrapper — and `KeyExists` can then only come from an existing
public artifact (though the trailing chmod can still fail). -/
theorem save_empty_priv_same_as_none (crypt : Option Cipher)
    (base_dir key_type key_name : String) (fs : FS) (pub_key : List Nat) :
    save crypt base_dir fs key_type key_name pub_key (some []) =
      save crypt base_dir fs key_type key_name pub_key none ∧
    ((∃ m, (save crypt base_dir fs key_type key_name pub_key (some [])).2 =
        some (Err.keyExists m)) ↔
      fs.isfile (get_key_path base_dir key_type key_name false) = true) := by
  refine ⟨rfl, ?_⟩
  rw [save_keyExists_iff]
  simp [truthy]

/-- Counterexample for C10 as stated: on a fresh store a save with empty
private material does fail, though no public artifact exists — the
unconditional `os.chmod` of the private path raises. -/
theorem save_empty_priv_fails_on_fresh :
    emptyFS.files (get_key_path "/pki" "minion" "node1" false) = none ∧
    (save none "/pki" emptyFS "minion" "node1" [80] (some [])).2 =
      some Err.fileNotFound := by
  constructor <;> rfl

end SaltKeyManager
